import Mathlib

/-!
# Verification of `linecarbot` (src/views.py)

Shallow embedding of the Line→Discord forwarding bridge in `src/views.py`.

External collaborators (the Line SDK, the `mimetypes` table, the network,
webhook parsing/signature verification) are modelled as oracle parameters;
the repository's own logic (routing, payload construction, extension
derivation, name padding, delivery fallback, the HTTP endpoint) is
translated function by function from the source.

Exceptions are modelled with `Except`; Python's exception classes that
occur in this module are the constructors of `Exn`.
-/

/-- Exception classes that can arise in `views.py`:
`keyError` from `request.META[...]` on a missing key, `lineBotApiError`
from the Line SDK, `typeError` from `functools.reduce` on an empty
iterable, `invalidSignature` from webhook verification, `transportError`
from `requests.post` failing at transport level. -/
inductive Exn where
  | keyError
  | lineBotApiError
  | typeError
  | invalidSignature
  | transportError
deriving DecidableEq, Repr

/-- The relevant fields of `settings.DISCORD` and `settings.LINE`
(external configuration, read once at startup). -/
structure Settings where
  repeat_webhook_id : String
  repeat_webhook_token : String
  broadcast_webhook_id : String
  broadcast_webhook_token : String
  capture_group_id : String
deriving DecidableEq, Repr

/-- `DiscordCarbot.repeat_hook_url` (views.py lines 19-22):
the template `https://discordapp.com/api/webhooks/{id}/{token}` filled
from settings. -/
def repeat_hook_url (cfg : Settings) : String :=
  "https://discordapp.com/api/webhooks/" ++ cfg.repeat_webhook_id ++ "/"
    ++ cfg.repeat_webhook_token

/-- `DiscordCarbot.broadcast_hook_url` (views.py lines 24-27). -/
def broadcast_hook_url (cfg : Settings) : String :=
  "https://discordapp.com/api/webhooks/" ++ cfg.broadcast_webhook_id ++ "/"
    ++ cfg.broadcast_webhook_token

/-- A group-member profile as returned by
`LineBotApi.get_group_member_profile`. -/
structure Profile where
  display_name : String
  picture_url : String
deriving DecidableEq, Repr

/-- The body of `LineBotApi.get_message_content`: a content type and the
byte chunks produced by `iter_content()` (bytes as `Nat`s). -/
structure MessageContent where
  content_type : String
  chunks : List (List Nat)
deriving DecidableEq, Repr

/-- Oracle for the Line SDK (`LineCarbot.api`).  Each call either
succeeds or raises `LineBotApiError` (the SDK's declared error class),
modelled as `Except Unit`. -/
structure LineApi where
  profile : String → String → Except Unit Profile
  content : String → Except Unit MessageContent

/-- The `file` keyword argument of `DiscordCarbot.send_message`: a
`(filename, byte content)` pair, as built by `LineCarbot.get_file`. -/
structure FilePart where
  filename : String
  bytes : List Nat
deriving DecidableEq, Repr

/-- The keyword arguments of `DiscordCarbot.send_message` (the outbound
payload).  Besides these semantic fields the serialized form also
carries `hook_url` (a quirk of `locals()`), which Discord ignores. -/
structure Payload where
  content : Option String := none
  file : Option FilePart := none
  embeds : Option (List String) := none
  username : Option String := none
  avatar_url : Option String := none
  payload_json : Option String := none
  tts : Bool := false
deriving DecidableEq, Repr

/-- One invocation of `DiscordCarbot.send_message`: a destination
webhook URL and the payload handed to it. -/
structure Delivery where
  url : String
  payload : Payload
deriving DecidableEq, Repr

/-- `LineCarbot.listening_groups` (views.py line 57):
the single configured capture group. -/
def listening_groups (cfg : Settings) : List String :=
  [cfg.capture_group_id]

/-- The loop body of `LineCarbot.user_in_listening_group`
(views.py lines 120-130): try each group id in order; a successful
profile fetch returns `true` at once, a `LineBotApiError` is swallowed
and the next group is tried; `false` after the loop. -/
def member_loop (api : LineApi) (user_id : String) : List String → Bool
  | [] => false
  | g :: gs =>
    match api.profile g user_id with
    | .ok _ => true
    | .error _ => member_loop api user_id gs

/-- `LineCarbot.user_in_listening_group` (views.py lines 118-130). -/
def user_in_listening_group (cfg : Settings) (api : LineApi) (user_id : String) : Bool :=
  member_loop api user_id (listening_groups cfg)

/-- Instrumented variant of `member_loop` that also records which group
ids were attempted (in order).  Its boolean component coincides with
`member_loop` (proved below). -/
def member_loop_trace (api : LineApi) (user_id : String) : List String → List String × Bool
  | [] => ([], false)
  | g :: gs =>
    match api.profile g user_id with
    | .ok _ => ([g], true)
    | .error _ =>
      let r := member_loop_trace api user_id gs
      (g :: r.1, r.2)

/-- `LineCarbot.get_sticker_embed` (views.py lines 132-144): the embeds
list, each entry being the embed's `image.url`. -/
def get_sticker_embed (sticker_id : String) : List String :=
  ["https://stickershop.line-scdn.net/stickershop/v1/sticker/" ++ sticker_id
    ++ "/android/sticker.png"]

/-- Does the character list start with `pre`?  (Core `List.isPrefixOf`,
restated to keep the development self-contained and decidable.) -/
def seqStartsWith : List Char → List Char → Bool
  | [], _ => true
  | _ :: _, [] => false
  | a :: as, b :: bs => a == b && seqStartsWith as bs

/-- Occurrence of `sub` as a contiguous subsequence of the list. -/
def seqOccursIn (sub : List Char) : List Char → Bool
  | [] => sub.isEmpty
  | c :: cs => seqStartsWith sub (c :: cs) || seqOccursIn sub cs

/-- Python's substring test `sub in s`. -/
def py_in (sub s : String) : Bool :=
  seqOccursIn sub.data s.data

/-- The inner helper `get_ext` of `LineCarbot.get_file`
(views.py lines 154-170).  `guess` is the oracle for
`mimetypes.guess_extension` (the standard table, an external
collaborator).  Exactly as in the source: the fallback for a failed
guess is `.mp3` when `'audio/' in mimetype` (substring test) and `''`
otherwise, and afterwards a resulting `.jpe` is replaced by `.jpg`. -/
def get_ext (guess : String → Option String) (mimetype : String) : String :=
  let guessed_ext :=
    match guess mimetype with
    | some e => e
    | none => if py_in "audio/" mimetype then ".mp3" else ""
  if guessed_ext = ".jpe" then ".jpg" else guessed_ext

/-- `functools.reduce(operator.add, chunks)`: concatenates the chunks;
on an empty iterable Python raises `TypeError`. -/
def reduce_add : List (List Nat) → Except Exn (List Nat)
  | [] => .error .typeError
  | c :: cs => .ok (cs.foldl (fun a b => a ++ b) c)

/-- `LineCarbot.get_file` (views.py lines 146-177): fetch the message
content, derive the filename `attachment` + extension, concatenate the
byte chunks. -/
def get_file (api : LineApi) (guess : String → Option String) (message_id : String) :
    Except Exn FilePart :=
  match api.content message_id with
  | .error _ => .error .lineBotApiError
  | .ok mc =>
    match reduce_add mc.chunks with
    | .error e => .error e
    | .ok bytes => .ok ⟨"attachment" ++ get_ext guess mc.content_type, bytes⟩

/-- The padding character `\U000e0000` used in
`LineCarbot.get_user_overrides` (views.py line 201). -/
def pad_char : Char := Char.ofNat 0xE0000

/-- Python's format-spec centering `'{:f^w}'.format(s)`: a string of
length ≥ `width` passes through; otherwise the deficit is split with
the smaller half of fill characters on the left. -/
def format_center (fill : Char) (width : Nat) (s : String) : String :=
  if width ≤ s.length then s
  else
    let pad := width - s.length
    let lpad := pad / 2
    String.mk (List.replicate lpad fill) ++ s
      ++ String.mk (List.replicate (pad - lpad) fill)

/-- The username/avatar override dictionary returned by
`LineCarbot.get_user_overrides`; `{}` is both fields `none`. -/
structure Overrides where
  username : Option String := none
  avatar_url : Option String := none
deriving DecidableEq, Repr

/-- `LineCarbot.get_user_overrides` (views.py lines 179-203): `{}` for a
missing user id; otherwise fetch the profile from the capture group
(a `LineBotApiError` propagates) and return the padded display name and
the avatar URL. -/
def get_user_overrides (cfg : Settings) (api : LineApi) (user_id : Option String) :
    Except Exn Overrides :=
  match user_id with
  | none => .ok {}
  | some uid =>
    match api.profile cfg.capture_group_id uid with
    | .error _ => .error .lineBotApiError
    | .ok profile =>
      .ok { username := some (format_center pad_char 2 profile.display_name),
            avatar_url := some profile.picture_url }

/-- The source of a Line message event: a group chat (with the group id
and the possibly absent sender user id) or a direct one-to-one chat. -/
inductive Source where
  | group (group_id : String) (user_id : Option String)
  | user (user_id : String)
deriving DecidableEq, Repr

/-- The message kinds registered on the webhook handler
(views.py lines 59, 77, 92-95) plus the unhandled default. -/
inductive Message where
  | text (text : String)
  | sticker (sticker_id : String)
  | image (id : String)
  | video (id : String)
  | audio (id : String)
  | file (id : String)
  | other
deriving DecidableEq, Repr

/-- One parsed webhook `MessageEvent`. -/
structure Event where
  source : Source
  message : Message
deriving DecidableEq, Repr

/-- The message id carried by the four attachment kinds dispatched to
`handle_file_message`. -/
def attachment_id : Message → Option String
  | .image i => some i
  | .video i => some i
  | .audio i => some i
  | .file i => some i
  | _ => none

/-- `LineCarbot.handle_text_message` (views.py lines 59-75), returning
the `send_message` invocations it performs; an uncaught exception from
`get_user_overrides` aborts with no invocation (in the source the
overrides are evaluated before `send_message` is entered). -/
def handle_text_message (cfg : Settings) (api : LineApi) (source : Source) (text : String) :
    Except Exn (List Delivery) :=
  match source with
  | .group gid uid =>
    if gid ∈ listening_groups cfg then
      match get_user_overrides cfg api uid with
      | .error e => .error e
      | .ok ov =>
        .ok [⟨repeat_hook_url cfg,
              { content := some text, username := ov.username, avatar_url := ov.avatar_url }⟩]
    else
      .ok []
  | .user uid =>
    if user_in_listening_group cfg api uid then
      .ok [⟨broadcast_hook_url cfg, { content := some text }⟩]
    else
      .ok []

/-- `LineCarbot.handle_sticker_message` (views.py lines 77-89): group
messages from a listening group are forwarded as an embed; direct
messages are only logged, member or not. -/
def handle_sticker_message (cfg : Settings) (api : LineApi) (source : Source)
    (sticker_id : String) : Except Exn (List Delivery) :=
  match source with
  | .group gid uid =>
    if gid ∈ listening_groups cfg then
      match get_user_overrides cfg api uid with
      | .error e => .error e
      | .ok ov =>
        .ok [⟨repeat_hook_url cfg,
              { embeds := some (get_sticker_embed sticker_id),
                username := ov.username, avatar_url := ov.avatar_url }⟩]
    else
      .ok []
  | .user uid =>
    if user_in_listening_group cfg api uid then
      .ok []
    else
      .ok []

/-- `LineCarbot.handle_file_message` (views.py lines 92-111), shared by
image, video, audio and file messages.  In the listening-group branch
the source evaluates `get_file` before `get_user_overrides` (keyword
arguments left to right). -/
def handle_file_message (cfg : Settings) (api : LineApi) (guess : String → Option String)
    (source : Source) (message_id : String) : Except Exn (List Delivery) :=
  match source with
  | .group gid uid =>
    if gid ∈ listening_groups cfg then
      match get_file api guess message_id with
      | .error e => .error e
      | .ok fp =>
        match get_user_overrides cfg api uid with
        | .error e => .error e
        | .ok ov =>
          .ok [⟨repeat_hook_url cfg,
                { file := some fp, username := ov.username, avatar_url := ov.avatar_url }⟩]
    else
      .ok []
  | .user uid =>
    if user_in_listening_group cfg api uid then
      match get_file api guess message_id with
      | .error e => .error e
      | .ok fp => .ok [⟨broadcast_hook_url cfg, { file := some fp }⟩]
    else
      .ok []

/-- Dispatch of one parsed event to its registered handler
(the decorators on views.py lines 59, 77, 92-95 and the default on
line 113, which only logs). -/
def handle_event (cfg : Settings) (api : LineApi) (guess : String → Option String)
    (e : Event) : Except Exn (List Delivery) :=
  match e.message with
  | .text t => handle_text_message cfg api e.source t
  | .sticker sid => handle_sticker_message cfg api e.source sid
  | .image i => handle_file_message cfg api guess e.source i
  | .video i => handle_file_message cfg api guess e.source i
  | .audio i => handle_file_message cfg api guess e.source i
  | .file i => handle_file_message cfg api guess e.source i
  | .other => .ok []

/-- Sequential handling of the parsed events, as `WebhookHandler.handle`
does: an exception from a handler aborts the remaining events. -/
def handle_events (cfg : Settings) (api : LineApi) (guess : String → Option String) :
    List Event → Except Exn (List Delivery)
  | [] => .ok []
  | e :: es =>
    match handle_event cfg api guess e with
    | .error err => .error err
    | .ok ds =>
      match handle_events cfg api guess es with
      | .error err => .error err
      | .ok rest => .ok (ds ++ rest)

/-- `LineCarbot.handler.handle(body, signature)`: the SDK verifies the
signature against the shared secret (`sigValid` oracle), raising
`InvalidSignatureError` on mismatch, then parses the body into events
(`parse` oracle) and runs the registered handlers. -/
def handler_handle (cfg : Settings) (api : LineApi) (guess : String → Option String)
    (sigValid : String → String → Bool) (parse : String → List Event)
    (body signature : String) : Except Exn (List Delivery) :=
  if sigValid body signature then
    handle_events cfg api guess (parse body)
  else
    .error .invalidSignature

/-- What an HTTP request to the Django view looks like: method, the
`META` mapping, and the decoded body. -/
structure HttpRequest where
  method : String
  meta : List (String × String)
  body : String
deriving DecidableEq, Repr

/-- Outcome of the Django view: an `HttpResponse` with status and body,
or an exception escaping the view (which Django turns into a 500). -/
inductive EndpointResult where
  | response (status : Nat) (body : String)
  | uncaught (e : Exn)
deriving DecidableEq, Repr

/-- The view `endpoint` (views.py lines 205-220): non-POST → 405;
`request.META['HTTP_X_LINE_SIGNATURE']` (raising `KeyError` when the
header is absent); then `handler.handle` with `InvalidSignatureError`
caught as 403 and `LineBotApiError` caught as 400; otherwise an empty
200. -/
def endpoint (cfg : Settings) (api : LineApi) (guess : String → Option String)
    (sigValid : String → String → Bool) (parse : String → List Event)
    (req : HttpRequest) : EndpointResult :=
  if req.method ≠ "POST" then
    .response 405 ""
  else
    match req.meta.lookup "HTTP_X_LINE_SIGNATURE" with
    | none => .uncaught .keyError
    | some signature =>
      match handler_handle cfg api guess sigValid parse req.body signature with
      | .error .invalidSignature => .response 403 ""
      | .error .lineBotApiError => .response 400 ""
      | .error e => .uncaught e
      | .ok _ => .response 200 ""

/-- The fixed fallback notice of `DiscordCarbot.send_message`
(views.py line 50). -/
def fallback_notice : String := "Unable to forward a message from Line."

/-- Outcome of one `requests.post`: a transport-level exception, or a
response carrying an HTTP status code. -/
inductive PostOutcome where
  | raise
  | response (status : Nat)
deriving DecidableEq, Repr

/-- What a single HTTP post to Discord carried: the translated payload,
or the plain-text fallback notice. -/
inductive PostBody where
  | payload (p : Payload)
  | notice (text : String)
deriving DecidableEq, Repr

/-- One attempted HTTP post and its outcome. -/
structure Attempt where
  url : String
  body : PostBody
  outcome : PostOutcome
deriving DecidableEq, Repr

/-- `response.raise_for_status()` raises `HTTPError` exactly for status
codes 400-599. -/
def raise_for_status (status : Nat) : Bool :=
  decide (400 ≤ status ∧ status < 600)

/-- `DiscordCarbot.send_message` (views.py lines 29-52) at the HTTP
level.  `o₁` is the network's outcome for the main post, `o₂` for the
fallback post (consulted only if that post happens).  Returns the posts
attempted in order and the exception escaping the function, if any:
the main post is outside the `try`, so its transport failure
propagates; `raise_for_status` raising triggers the single fallback
post inside the bare `except`, whose own transport failure also
propagates out of the handler. -/
def send_message (o₁ o₂ : PostOutcome) (hook_url : String) (p : Payload) :
    List Attempt × Option Exn :=
  match o₁ with
  | .raise => ([⟨hook_url, .payload p, .raise⟩], some .transportError)
  | .response s =>
    if raise_for_status s then
      match o₂ with
      | .raise =>
        ([⟨hook_url, .payload p, .response s⟩,
          ⟨hook_url, .notice fallback_notice, .raise⟩], some .transportError)
      | .response s₂ =>
        ([⟨hook_url, .payload p, .response s⟩,
          ⟨hook_url, .notice fallback_notice, .response s₂⟩], none)
    else
      ([⟨hook_url, .payload p, .response s⟩], none)

/-- Number of fallback-notice posts in a trace of attempts. -/
def notice_count (l : List Attempt) : Nat :=
  (l.filter fun a =>
    match a.body with
    | .notice _ => true
    | .payload _ => false).length

/-- The spec's §4.4 extension rule taken literally: the `audio/*`
fallback applies when the content type BEGINS with `audio/`
(the source instead tests substring containment). -/
def spec_get_ext (guess : String → Option String) (mimetype : String) : String :=
  match guess mimetype with
  | some e => if e = ".jpe" then ".jpg" else e
  | none => if seqStartsWith "audio/".data mimetype.data then ".mp3" else ""

/-- The amended extension rule: as `spec_get_ext` but with the fallback
keyed on `audio/` occurring anywhere in the content type, the way the
source's Python `in` operator behaves. -/
def spec_get_ext_contains (guess : String → Option String) (mimetype : String) : String :=
  match guess mimetype with
  | some e => if e = ".jpe" then ".jpg" else e
  | none => if py_in "audio/" mimetype then ".mp3" else ""

/-! ## Concrete fixtures for witnesses -/

/-- A concrete configuration ("G" is the capture group). -/
def cfgW : Settings :=
  ⟨"rid", "rtok", "bid", "btok", "G"⟩

/-- A Line API oracle on which every call fails with `LineBotApiError`. -/
def apiFail : LineApi :=
  ⟨fun _ _ => .error (), fun _ => .error ()⟩

/-- A Line API oracle on which every call succeeds. -/
def apiOk : LineApi :=
  ⟨fun _ _ => .ok ⟨"Alice", "http://pic"⟩,
   fun _ => .ok ⟨"image/jpeg", [[1, 2], [3]]⟩⟩

/-- A mimetype oracle that never guesses an extension. -/
def guessW : String → Option String := fun _ => none

/-! ## Helper lemmas -/

/-- The boolean returned by `user_in_listening_group`'s loop agrees with
the instrumented trace. -/
theorem member_loop_eq_trace_snd (api : LineApi) (uid : String) :
    ∀ gs : List String, member_loop api uid gs = (member_loop_trace api uid gs).2
  | [] => rfl
  | g :: gs => by
    simp only [member_loop, member_loop_trace]
    cases api.profile g uid with
    | ok _ => rfl
    | error _ => simpa using member_loop_eq_trace_snd api uid gs

/-- When every profile fetch fails, the loop attempts every group and
returns `false`. -/
theorem member_loop_trace_all_fail (api : LineApi) (uid : String) :
    ∀ gs : List String, (∀ g ∈ gs, api.profile g uid = .error ()) →
      member_loop_trace api uid gs = (gs, false)
  | [], _ => rfl
  | g :: gs, h => by
    have hg : api.profile g uid = .error () := h g (by simp)
    have ih := member_loop_trace_all_fail api uid gs (fun g' hg' => h g' (by simp [hg']))
    simp [member_loop_trace, hg, ih]

/-- The loop stops at the first successful fetch: the groups before it
are attempted in order, the ones after it are not. -/
theorem member_loop_trace_first_ok (api : LineApi) (uid : String) :
    ∀ (pre : List String) (g : String) (post : List String),
      (∀ g' ∈ pre, api.profile g' uid = .error ()) →
      (∃ pr, api.profile g uid = .ok pr) →
      member_loop_trace api uid (pre ++ g :: post) = (pre ++ [g], true)
  | [], g, post, _, hok => by
    obtain ⟨pr, hpr⟩ := hok
    simp [member_loop_trace, hpr]
  | p :: pre, g, post, hfail, hok => by
    have hp : api.profile p uid = .error () := hfail p (by simp)
    have ih := member_loop_trace_first_ok api uid pre g post
      (fun g' h => hfail g' (by simp [h])) hok
    simp [member_loop_trace, hp, ih]

/-! ## Claims -/

/-- C3: a sticker message event from a direct-message (non-group) source
is never delivered anywhere — both the member and the non-member branch
of `handle_sticker_message` only log. -/
theorem C3_direct_sticker_never_delivered (cfg : Settings) (api : LineApi)
    (guess : String → Option String) (uid sid : String) :
    handle_event cfg api guess ⟨.user uid, .sticker sid⟩ = .ok [] := by
  simp [handle_event, handle_sticker_message]

/-- C5: `user_in_listening_group` probes the listening set in order:
its result is the trace's boolean; when every fetch fails it attempts
every group and returns `false`; the first successful fetch ends the
loop with `true` and no further attempt.  The function is total — a
`LineBotApiError` (the Line SDK's only declared error, the loop's
`except` clause) is absorbed as a negative signal, never re-raised. -/
theorem C5_membership_probe (cfg : Settings) (api : LineApi) (uid : String) :
    user_in_listening_group cfg api uid =
      (member_loop_trace api uid (listening_groups cfg)).2 ∧
    (∀ gs : List String, (∀ g ∈ gs, api.profile g uid = .error ()) →
      member_loop_trace api uid gs = (gs, false)) ∧
    (∀ (pre : List String) (g : String) (post : List String),
      (∀ g' ∈ pre, api.profile g' uid = .error ()) →
      (∃ pr, api.profile g uid = .ok pr) →
      member_loop_trace api uid (pre ++ g :: post) = (pre ++ [g], true)) :=
  ⟨member_loop_eq_trace_snd api uid (listening_groups cfg),
   member_loop_trace_all_fail api uid,
   member_loop_trace_first_ok api uid⟩

/-- Witness for C5: on an API where every fetch fails, the whole
listening set is attempted and the check returns `false`. -/
theorem C5_membership_probe_witness :
    member_loop_trace apiFail "u" (listening_groups cfgW) = (listening_groups cfgW, false) :=
  (C5_membership_probe cfgW apiFail "u").2.1 (listening_groups cfgW) (fun _ _ => rfl)

/-- C10: a POST without the `X-Line-Signature` header makes
`request.META['HTTP_X_LINE_SIGNATURE']` raise `KeyError` before any
verification or handling: the result is independent of the signature
oracle, the parser and the API, and is not one of the 403/400/200
responses. -/
theorem C10_missing_header_uncaught (cfg : Settings) (api : LineApi)
    (guess : String → Option String) (sigValid : String → String → Bool)
    (parse : String → List Event) (req : HttpRequest)
    (hpost : req.method = "POST")
    (hhdr : req.meta.lookup "HTTP_X_LINE_SIGNATURE" = none) :
    endpoint cfg api guess sigValid parse req = .uncaught .keyError := by
  simp [endpoint, hpost, hhdr]

/-- Witness for C10 at a concrete header-less POST. -/
theorem C10_missing_header_uncaught_witness :
    endpoint cfgW apiOk guessW (fun _ _ => true) (fun _ => []) ⟨"POST", [], ""⟩ =
      .uncaught .keyError :=
  C10_missing_header_uncaught cfgW apiOk guessW (fun _ _ => true) (fun _ => [])
    ⟨"POST", [], ""⟩ rfl rfl

/-- C8 counterexample: a POST that merely omits the signature header is
"any other POST" under the claim, yet the endpoint does not answer 200 —
the `META` lookup raises `KeyError` and the exception escapes the view. -/
theorem C8_counterexample_missing_header :
    endpoint cfgW apiOk guessW (fun _ _ => true) (fun _ => []) ⟨"POST", [], ""⟩ =
      .uncaught .keyError ∧
    endpoint cfgW apiOk guessW (fun _ _ => true) (fun _ => []) ⟨"POST", [], ""⟩ ≠
      .response 200 "" := by
  constructor <;> decide

/-- C8 amended: for requests that do carry the signature header the
documented contract holds — non-POST → 405, invalid signature → 403, a
`LineBotApiError` raised while handling → 400, handling that completes →
200 with empty body. -/
theorem C8_endpoint_statuses (cfg : Settings) (api : LineApi)
    (guess : String → Option String) (sigValid : String → String → Bool)
    (parse : String → List Event) (req : HttpRequest) (sig : String)
    (hhdr : req.meta.lookup "HTTP_X_LINE_SIGNATURE" = some sig) :
    (req.method ≠ "POST" → endpoint cfg api guess sigValid parse req = .response 405 "") ∧
    (req.method = "POST" → sigValid req.body sig = false →
      endpoint cfg api guess sigValid parse req = .response 403 "") ∧
    (req.method = "POST" → sigValid req.body sig = true →
      handle_events cfg api guess (parse req.body) = .error .lineBotApiError →
      endpoint cfg api guess sigValid parse req = .response 400 "") ∧
    (∀ ds, req.method = "POST" → sigValid req.body sig = true →
      handle_events cfg api guess (parse req.body) = .ok ds →
      endpoint cfg api guess sigValid parse req = .response 200 "") := by
  refine ⟨fun hnp => ?_, fun hp hv => ?_, fun hp hv hh => ?_, fun ds hp hv hh => ?_⟩
  · simp [endpoint, hnp]
  · simp [endpoint, hp, hhdr, handler_handle, hv]
  · simp [endpoint, hp, hhdr, handler_handle, hv, hh]
  · simp [endpoint, hp, hhdr, handler_handle, hv, hh]

/-- Witness for C8 (amended) at a concrete header-carrying POST whose
handling completes. -/
theorem C8_endpoint_statuses_witness :
    endpoint cfgW apiOk guessW (fun _ _ => true) (fun _ => [])
      ⟨"POST", [("HTTP_X_LINE_SIGNATURE", "s")], "b"⟩ = .response 200 "" :=
  (C8_endpoint_statuses cfgW apiOk guessW (fun _ _ => true) (fun _ => [])
    ⟨"POST", [("HTTP_X_LINE_SIGNATURE", "s")], "b"⟩ "s" rfl).2.2.2 [] rfl rfl rfl

/-- C4 counterexample: a transport-level failure of the initial post is
raised by `requests.post` OUTSIDE the `try`, so no fallback submission
is made at all and the exception escapes `send_message` — against the
claim's "exactly one fallback … no exception surfaces". -/
theorem C4_counterexample_transport_failure :
    send_message .raise (.response 200) "url" {} =
      ([⟨"url", .payload {}, .raise⟩], some .transportError) ∧
    notice_count (send_message .raise (.response 200) "url" {}).1 = 0 := by
  constructor <;> rfl

/-- C4 amended: only `raise_for_status` raising — an HTTP status in
400–599 on the initial post — triggers the fallback: then exactly one
fallback submission with the fixed notice goes to the same destination
URL, it is never retried, and no exception surfaces unless the fallback
post itself fails at transport level; a status outside 400–599 triggers
nothing further; a transport-level failure of the initial post
propagates to the caller with no fallback. -/
theorem C4_fallback_on_http_error (o₂ : PostOutcome) (url : String) (p : Payload) (s : Nat) :
    (raise_for_status s = true →
      (send_message (.response s) o₂ url p).1 =
        [⟨url, .payload p, .response s⟩, ⟨url, .notice fallback_notice, o₂⟩] ∧
      notice_count (send_message (.response s) o₂ url p).1 = 1 ∧
      (∀ s₂, o₂ = .response s₂ → (send_message (.response s) o₂ url p).2 = none)) ∧
    (raise_for_status s = false →
      (send_message (.response s) o₂ url p).1 = [⟨url, .payload p, .response s⟩] ∧
      (send_message (.response s) o₂ url p).2 = none) ∧
    (send_message .raise o₂ url p =
      ([⟨url, .payload p, .raise⟩], some .transportError)) := by
  refine ⟨fun hs => ?_, fun hs => ?_, rfl⟩
  · cases o₂ with
    | raise => simp [send_message, hs, notice_count, fallback_notice]
    | response s₂ => simp [send_message, hs, notice_count, fallback_notice]
  · simp [send_message, hs]

/-- Witness for C4 (amended): a 500 on the initial post yields the main
attempt plus exactly one fallback-notice attempt. -/
theorem C4_fallback_on_http_error_witness :
    (send_message (.response 500) (.response 204) "url" {}).1 =
      [⟨"url", .payload {}, .response 500⟩,
       ⟨"url", .notice fallback_notice, .response 204⟩] :=
  (((C4_fallback_on_http_error (.response 204) "url" {} 500).1) (by decide)).1

/-- C6 counterexample: `'audio/' in mimetype` is a substring test, not a
prefix test.  On a content type that contains but does not begin with
`audio/` and that the table cannot map, the code forces `.mp3` where the
claim's rule yields the empty extension. -/
theorem C6_counterexample_contains_vs_startswith :
    get_ext guessW "x/audio/y" = ".mp3" ∧
    spec_get_ext guessW "x/audio/y" = "" ∧
    seqStartsWith "audio/".data "x/audio/y".data = false := by
  refine ⟨rfl, rfl, by decide⟩

/-- C6 amended: extension derivation is total and equals the rule with
the `audio/` fallback keyed on substring containment; a `.jpe` guess is
always normalized to `.jpg`; and whenever the content fetch succeeds the
resulting filename is the literal base `attachment` plus the derived
extension. -/
theorem C6_ext_derivation (guess : String → Option String) (mt : String) :
    get_ext guess mt = spec_get_ext_contains guess mt ∧
    (guess mt = some ".jpe" → get_ext guess mt = ".jpg") ∧
    (∀ (api : LineApi) (mid : String) (mc : MessageContent) (fp : FilePart),
      api.content mid = .ok mc → get_file api guess mid = .ok fp →
      fp.filename = "attachment" ++ get_ext guess mc.content_type) := by
  refine ⟨?_, fun hjpe => ?_, fun api mid mc fp hmc hfp => ?_⟩
  · simp only [get_ext, spec_get_ext_contains]
    cases guess mt with
    | some e => simp
    | none =>
      by_cases hin : py_in "audio/" mt = true <;> simp [hin] <;> decide
  · simp [get_ext, hjpe]
  · simp only [get_file, hmc] at hfp
    cases hra : reduce_add mc.chunks with
    | error e => simp [hra] at hfp
    | ok bytes =>
      simp only [hra] at hfp
      cases hfp
      rfl

/-- Witness for C6 (amended): for a successfully fetched `image/jpeg`
attachment with an empty table guess, the filename is `attachment` plus
the (here empty) derived extension. -/
theorem C6_ext_derivation_witness :
    (FilePart.mk "attachment" [1, 2, 3]).filename =
      "attachment" ++ get_ext guessW "image/jpeg" :=
  (C6_ext_derivation guessW "image/jpeg").2.2 apiOk "m" ⟨"image/jpeg", [[1, 2], [3]]⟩
    ⟨"attachment", [1, 2, 3]⟩ rfl rfl

/-- Appending strings appends their character lists. -/
theorem string_mk_append (a b : List Char) : (⟨a⟩ : String) ++ ⟨b⟩ = ⟨a ++ b⟩ := rfl

/-- A string of length 0 centered to width 2 is two fill characters. -/
theorem format_center2_len_zero (fill : Char) (s : String) (h : s.length = 0) :
    format_center fill 2 s = String.mk [fill, fill] := by
  obtain ⟨l⟩ := s
  simp only [String.length] at h
  obtain rfl := List.length_eq_zero.mp h
  simp [format_center, String.length, string_mk_append]

/-- A string of length 1 centered to width 2 gains one fill character on
the right (the left share of a deficit of 1 is 0). -/
theorem format_center2_len_one (fill : Char) (s : String) (h : s.length = 1) :
    format_center fill 2 s = s.push fill := by
  obtain ⟨l⟩ := s
  simp only [String.length] at h
  obtain ⟨c, rfl⟩ := List.length_eq_one.mp h
  simp [format_center, String.push, String.length, string_mk_append]

/-- C7: the username override is the display name centered to width 2
with the invisible filler `\U000e0000`: an empty name becomes two
fillers, a 1-character name gains one filler (length exactly 2 in both
cases), and a name of length ≥ 2 passes through unchanged. -/
theorem C7_display_name_padding (s : String) (cfg : Settings) (api : LineApi)
    (uid : String) (pr : Profile)
    (h : api.profile cfg.capture_group_id uid = .ok pr) :
    (s.length = 0 → format_center pad_char 2 s = String.mk [pad_char, pad_char]) ∧
    (s.length = 1 → format_center pad_char 2 s = s.push pad_char) ∧
    (s.length ≤ 1 → (format_center pad_char 2 s).length = 2) ∧
    (2 ≤ s.length → format_center pad_char 2 s = s) ∧
    get_user_overrides cfg api (some uid) =
      .ok ⟨some (format_center pad_char 2 pr.display_name), some pr.picture_url⟩ := by
  refine ⟨format_center2_len_zero pad_char s, format_center2_len_one pad_char s,
    fun hle => ?_, fun hge => ?_, ?_⟩
  · rcases Nat.le_one_iff_eq_zero_or_eq_one.mp hle with h0 | h1
    · rw [format_center2_len_zero pad_char s h0]
      rfl
    · rw [format_center2_len_one pad_char s h1]
      obtain ⟨l⟩ := s
      simp only [String.length] at h1 ⊢
      simp [String.push, h1]
  · simp [format_center, hge]
  · simp [get_user_overrides, h]

/-- Witness for C7: the 1-character name "A" is padded on the right with
the filler. -/
theorem C7_display_name_padding_witness :
    format_center pad_char 2 "A" = "A".push pad_char :=
  (C7_display_name_padding "A" cfgW apiOk "u" ⟨"Alice", "http://pic"⟩ rfl).2.1 rfl

/-- In the listening-group branch of `handle_text_message`, a completed
run delivers exactly one payload to the repeat hook. -/
theorem handle_text_group_ok (cfg : Settings) (api : LineApi) (gid : String)
    (uid : Option String) (t : String) (ds : List Delivery)
    (hin : gid ∈ listening_groups cfg)
    (hds : handle_text_message cfg api (.group gid uid) t = .ok ds) :
    ∃ p, ds = [⟨repeat_hook_url cfg, p⟩] := by
  simp only [handle_text_message, if_pos hin] at hds
  cases hov : get_user_overrides cfg api uid with
  | error e => simp [hov] at hds
  | ok ov =>
    simp only [hov, Except.ok.injEq] at hds
    exact ⟨_, hds.symm⟩

/-- In the listening-group branch of `handle_sticker_message`, a
completed run delivers exactly one payload to the repeat hook. -/
theorem handle_sticker_group_ok (cfg : Settings) (api : LineApi) (gid : String)
    (uid : Option String) (sid : String) (ds : List Delivery)
    (hin : gid ∈ listening_groups cfg)
    (hds : handle_sticker_message cfg api (.group gid uid) sid = .ok ds) :
    ∃ p, ds = [⟨repeat_hook_url cfg, p⟩] := by
  simp only [handle_sticker_message, if_pos hin] at hds
  cases hov : get_user_overrides cfg api uid with
  | error e => simp [hov] at hds
  | ok ov =>
    simp only [hov, Except.ok.injEq] at hds
    exact ⟨_, hds.symm⟩

/-- In the listening-group branch of `handle_file_message`, a completed
run delivers exactly one payload to the repeat hook. -/
theorem handle_file_group_ok (cfg : Settings) (api : LineApi)
    (guess : String → Option String) (gid : String) (uid : Option String)
    (mid : String) (ds : List Delivery)
    (hin : gid ∈ listening_groups cfg)
    (hds : handle_file_message cfg api guess (.group gid uid) mid = .ok ds) :
    ∃ p, ds = [⟨repeat_hook_url cfg, p⟩] := by
  simp only [handle_file_message, if_pos hin] at hds
  cases hfp : get_file api guess mid with
  | error e => simp [hfp] at hds
  | ok fp =>
    simp only [hfp] at hds
    cases hov : get_user_overrides cfg api uid with
    | error e => simp [hov] at hds
    | ok ov =>
      simp only [hov, Except.ok.injEq] at hds
      exact ⟨_, hds.symm⟩

/-- C1: a message event of any handled kind whose source is a group chat
is forwarded exactly once, to the repeat hook, when the group id is in
the listening set (whenever handling completes without an uncaught
platform error — see C9), and produces no delivery at all when the
group id is not in the listening set. -/
theorem C1_group_routing (cfg : Settings) (api : LineApi) (guess : String → Option String)
    (gid : String) (uid : Option String) (m : Message) (hm : m ≠ .other) :
    (gid ∉ listening_groups cfg →
      handle_event cfg api guess ⟨.group gid uid, m⟩ = .ok []) ∧
    (gid ∈ listening_groups cfg →
      ∀ ds, handle_event cfg api guess ⟨.group gid uid, m⟩ = .ok ds →
        ∃ p, ds = [⟨repeat_hook_url cfg, p⟩]) := by
  constructor
  · intro hnin
    cases m <;>
      simp_all [handle_event, handle_text_message, handle_sticker_message,
        handle_file_message]
  · intro hin ds hds
    cases m with
    | text t => exact handle_text_group_ok cfg api gid uid t ds hin hds
    | sticker sid => exact handle_sticker_group_ok cfg api gid uid sid ds hin hds
    | image i => exact handle_file_group_ok cfg api guess gid uid i ds hin hds
    | video i => exact handle_file_group_ok cfg api guess gid uid i ds hin hds
    | audio i => exact handle_file_group_ok cfg api guess gid uid i ds hin hds
    | file i => exact handle_file_group_ok cfg api guess gid uid i ds hin hds
    | other => exact absurd rfl hm

/-- Witness for C1: a group text event from a group outside the
listening set produces no delivery. -/
theorem C1_group_routing_witness :
    handle_event cfgW apiOk guessW ⟨.group "H" none, .text "hi"⟩ = .ok [] :=
  (C1_group_routing cfgW apiOk guessW "H" none (.text "hi") (by decide)).1 (by decide)

/-- C2: a direct (non-group) text or attachment message event is
forwarded exactly once to the broadcast hook, with neither a username
nor an avatar override, when the membership check succeeds (whenever
handling completes), and produces no delivery when it fails.  (Sticker
events, cited separately by C3, are dropped even for members.) -/
theorem C2_direct_routing (cfg : Settings) (api : LineApi) (guess : String → Option String)
    (uid : String) (m : Message)
    (hm : (∃ t, m = .text t) ∨ attachment_id m ≠ none) :
    (user_in_listening_group cfg api uid = true →
      ∀ ds, handle_event cfg api guess ⟨.user uid, m⟩ = .ok ds →
        ∃ p, ds = [⟨broadcast_hook_url cfg, p⟩] ∧
          p.username = none ∧ p.avatar_url = none) ∧
    (user_in_listening_group cfg api uid = false →
      handle_event cfg api guess ⟨.user uid, m⟩ = .ok []) := by
  constructor
  · intro hmem ds hds
    cases m with
    | text t =>
      simp only [handle_event, handle_text_message, if_pos hmem, Except.ok.injEq] at hds
      exact ⟨_, hds.symm, rfl, rfl⟩
    | image i =>
      simp only [handle_event, handle_file_message, if_pos hmem] at hds
      cases hfp : get_file api guess i with
      | error e => simp [hfp] at hds
      | ok fp =>
        simp only [hfp, Except.ok.injEq] at hds
        exact ⟨_, hds.symm, rfl, rfl⟩
    | video i =>
      simp only [handle_event, handle_file_message, if_pos hmem] at hds
      cases hfp : get_file api guess i with
      | error e => simp [hfp] at hds
      | ok fp =>
        simp only [hfp, Except.ok.injEq] at hds
        exact ⟨_, hds.symm, rfl, rfl⟩
    | audio i =>
      simp only [handle_event, handle_file_message, if_pos hmem] at hds
      cases hfp : get_file api guess i with
      | error e => simp [hfp] at hds
      | ok fp =>
        simp only [hfp, Except.ok.injEq] at hds
        exact ⟨_, hds.symm, rfl, rfl⟩
    | file i =>
      simp only [handle_event, handle_file_message, if_pos hmem] at hds
      cases hfp : get_file api guess i with
      | error e => simp [hfp] at hds
      | ok fp =>
        simp only [hfp, Except.ok.injEq] at hds
        exact ⟨_, hds.symm, rfl, rfl⟩
    | sticker sid => simp [attachment_id] at hm
    | other => simp [attachment_id] at hm
  · intro hmem
    cases m <;>
      simp_all [handle_event, handle_text_message, handle_sticker_message,
        handle_file_message, attachment_id]

/-- Witness for C2: a direct text message from a non-member produces no
delivery. -/
theorem C2_direct_routing_witness :
    handle_event cfgW apiFail guessW ⟨.user "u", .text "hi"⟩ = .ok [] :=
  (C2_direct_routing cfgW apiFail guessW "u" (.text "hi") (Or.inl ⟨"hi", rfl⟩)).2 rfl

/-- C9: for a listening-group event with the sender's user id present,
a `LineBotApiError` from the profile fetch inside `get_user_overrides`
is not swallowed (unlike the membership check): the handler aborts with
the exception and no delivery, and the endpoint answers 400. -/
theorem C9_identity_failure_aborts (cfg : Settings) (api : LineApi)
    (guess : String → Option String) (sigValid : String → String → Bool)
    (parse : String → List Event) (req : HttpRequest) (sig : String)
    (gid u : String) (m : Message)
    (hm : m ≠ .other)
    (hfile : ∀ i, attachment_id m = some i → ∃ fp, get_file api guess i = .ok fp)
    (hin : gid ∈ listening_groups cfg)
    (hprof : api.profile cfg.capture_group_id u = .error ())
    (hmethod : req.method = "POST")
    (hhdr : req.meta.lookup "HTTP_X_LINE_SIGNATURE" = some sig)
    (hvalid : sigValid req.body sig = true)
    (hparse : parse req.body = [⟨.group gid (some u), m⟩]) :
    handle_event cfg api guess ⟨.group gid (some u), m⟩ = .error .lineBotApiError ∧
    endpoint cfg api guess sigValid parse req = .response 400 "" := by
  have hov : get_user_overrides cfg api (some u) = .error .lineBotApiError := by
    simp [get_user_overrides, hprof]
  have hev : handle_event cfg api guess ⟨.group gid (some u), m⟩ =
      .error .lineBotApiError := by
    cases m with
    | text t => simp [handle_event, handle_text_message, if_pos hin, hov]
    | sticker sid => simp [handle_event, handle_sticker_message, if_pos hin, hov]
    | image i =>
      obtain ⟨fp, hfp⟩ := hfile i rfl
      simp [handle_event, handle_file_message, if_pos hin, hfp, hov]
    | video i =>
      obtain ⟨fp, hfp⟩ := hfile i rfl
      simp [handle_event, handle_file_message, if_pos hin, hfp, hov]
    | audio i =>
      obtain ⟨fp, hfp⟩ := hfile i rfl
      simp [handle_event, handle_file_message, if_pos hin, hfp, hov]
    | file i =>
      obtain ⟨fp, hfp⟩ := hfile i rfl
      simp [handle_event, handle_file_message, if_pos hin, hfp, hov]
    | other => exact absurd rfl hm
  refine ⟨hev, ?_⟩
  have hevs : handle_events cfg api guess (parse req.body) = .error .lineBotApiError := by
    rw [hparse]
    simp [handle_events, hev]
  simp [endpoint, hmethod, hhdr, handler_handle, hvalid, hevs]

/-- Witness for C9: a concrete well-signed POST carrying one listening-
group text event from a sender whose profile fetch fails is answered
with status 400 and empty body. -/
theorem C9_identity_failure_aborts_witness :
    endpoint cfgW apiFail guessW (fun _ _ => true)
      (fun _ => [⟨.group "G" (some "u"), .text "hi"⟩])
      ⟨"POST", [("HTTP_X_LINE_SIGNATURE", "s")], "b"⟩ = .response 400 "" :=
  (C9_identity_failure_aborts cfgW apiFail guessW (fun _ _ => true)
    (fun _ => [⟨.group "G" (some "u"), .text "hi"⟩])
    ⟨"POST", [("HTTP_X_LINE_SIGNATURE", "s")], "b"⟩ "s" "G" "u" (.text "hi")
    (by decide) (fun i h => by simp [attachment_id] at h) (by decide)
    rfl rfl rfl rfl rfl).2
